import Mathlib

/-!
A shallow embedding of the Lichess MCP server's tool-invocation pipeline
(`src/index.ts`): the mutable bearer-token store, the `lichessRequest`
helper, and the `CallToolRequestSchema` handler cases relevant to the
verified properties.  JavaScript runtime behaviour (string/number
coercions, `JSON.parse` / `JSON.stringify`, `fetch`) is modelled
explicitly; the network is an oracle mapping each outbound request to a
response or a transport failure, and each handler returns its outcome,
the token state after the call, and the ordered list of fetches issued.
-/

namespace LichessMCP

/-- JavaScript primitive values as they occur in a tool-call argument bag.
Numbers are modelled as integers plus a distinguished NaN, which covers
every argument shape the handlers inspect. -/
inductive JsPrim where
  | undefV
  | nullV
  | boolV (b : Bool)
  | numV (n : Int)
  | nanV
  | strV (s : String)
deriving DecidableEq, Repr

/-- ECMAScript `String(x)` on a primitive: `String(undefined)` is the
literal text `"undefined"`. -/
def jsToString : JsPrim → String
  | .undefV => "undefined"
  | .nullV => "null"
  | .boolV b => if b then "true" else "false"
  | .numV n => toString n
  | .nanV => "NaN"
  | .strV s => s

/-- ECMAScript truthiness, as used by `Boolean(x)` and by `if (x)`. -/
def jsTruthy : JsPrim → Bool
  | .undefV => false
  | .nullV => false
  | .boolV b => b
  | .numV n => n != 0
  | .nanV => false
  | .strV s => s != ""

/-- Whitespace class trimmed by `String.prototype.trim`. -/
def isJsWs (c : Char) : Bool :=
  c = ' ' ∨ c = '\n' ∨ c = '\t' ∨ c = '\r'

/-- Model of `String.prototype.trim`. -/
def jsTrim (s : String) : String :=
  String.mk (((s.toList.dropWhile isJsWs).reverse.dropWhile isJsWs).reverse)

/-- Splitting a character list at every occurrence of a separator. -/
def splitChars (sep : Char) : List Char → List (List Char)
  | [] => [[]]
  | c :: rest =>
      match splitChars sep rest with
      | [] => [[]]
      | g :: gs => if c = sep then [] :: g :: gs else (c :: g) :: gs

/-- Model of `String.prototype.split` with a one-character separator. -/
def jsSplit (s : String) (sep : Char) : List String :=
  (splitChars sep s.toList).map String.mk

/-- Decimal-integer reading used by `Number(string)`: trimmed empty input
is 0, an optionally signed digit string is its value, anything else is
NaN (`none`).  (Fractional/exponent forms do not occur in this model.) -/
def jsStrToNumber (s : String) : Option Int :=
  let t := jsTrim s
  if t = "" then some 0
  else
    let (sign, digits) :=
      match t.toList with
      | '-' :: rest => ((-1 : Int), rest)
      | '+' :: rest => ((1 : Int), rest)
      | l => ((1 : Int), l)
    if digits ≠ [] ∧ digits.all Char.isDigit then
      some (sign * (Int.ofNat (digits.foldl (fun a c => a * 10 + (c.toNat - '0'.toNat)) 0)))
    else none

/-- ECMAScript `Number(x)`; `none` stands for NaN. -/
def jsToNumber : JsPrim → Option Int
  | .undefV => none
  | .nullV => some 0
  | .boolV b => some (if b then 1 else 0)
  | .numV n => some n
  | .nanV => none
  | .strV s => jsStrToNumber s

/-- The pattern `Number(x) || d`: the left operand is kept only when it is
a number other than 0 (NaN and 0 are falsy). -/
def numOr (x : Option Int) (d : Int) : Int :=
  match x with
  | none => d
  | some n => if n = 0 then d else n

/-- The `<` comparison against an integer constant where the left side may
be NaN: every comparison with NaN is false. -/
def jsLtNum (x : Option Int) (b : Int) : Bool :=
  match x with
  | none => false
  | some n => decide (n < b)

/-- Rendering of a possibly-NaN number by `String(x)`. -/
def jsNumToString (x : Option Int) : String :=
  match x with
  | none => "NaN"
  | some n => toString n

/-- A tool-call argument bag (`request.params.arguments`). -/
def Args := List (String × JsPrim)

/-- Property access `request.params.arguments?.k`: `undefined` when the
key (or the whole bag) is absent. -/
def getArg (args : Args) (k : String) : JsPrim :=
  match args.find? (fun p => p.1 == k) with
  | some p => p.2
  | none => .undefV

/-- Substring test, as in `String.prototype.includes`. -/
def charsContain (l sub : List Char) : Bool :=
  match l with
  | [] => sub == []
  | _ :: rest => sub.isPrefixOf l || charsContain rest sub

/-- String form of `includes`. -/
def strContains (s sub : String) : Bool :=
  charsContain s.toList sub.toList

/-- JSON documents (numbers restricted to integers, which covers every
payload this development evaluates). -/
inductive Json where
  | null
  | bool (b : Bool)
  | num (n : Int)
  | str (s : String)
  | arr (elems : List Json)
  | obj (fields : List (String × Json))

/-- Whitespace skipping for the JSON reader. -/
def skipWs : List Char → List Char
  | [] => []
  | c :: cs => if c = ' ' ∨ c = '\n' ∨ c = '\t' ∨ c = '\r' then skipWs cs else c :: cs

/-- String-literal body reader (after the opening quote); handles the
escapes that occur in the modelled payloads. -/
def readStrChars (acc : List Char) : List Char → Except String (String × List Char)
  | [] => .error "Unterminated string in JSON"
  | '"' :: rest => .ok (String.mk acc.reverse, rest)
  | '\\' :: c :: rest =>
      let d := if c = 'n' then '\n' else if c = 't' then '\t' else if c = 'r' then '\r' else c
      readStrChars (d :: acc) rest
  | c :: rest => readStrChars (c :: acc) rest

/-- Digit-run reader for JSON integers. -/
def readDigits (acc : Nat) : List Char → Nat × List Char
  | [] => (acc, [])
  | c :: rest =>
      if c.isDigit then readDigits (acc * 10 + (c.toNat - '0'.toNat)) rest
      else (acc, c :: rest)

mutual

/-- Model of `JSON.parse` on one value, with a fuel bound on nesting. -/
def readJsonVal : Nat → List Char → Except String (Json × List Char)
  | 0, _ => .error "JSON nesting too deep"
  | fuel + 1, cs =>
    match skipWs cs with
    | [] => .error "Unexpected end of JSON input"
    | '\x7b' :: rest =>
        (match skipWs rest with
         | '\x7d' :: rest2 => .ok (.obj [], rest2)
         | rest2 =>
            match readJsonMembers fuel rest2 with
            | .error e => .error e
            | .ok (fields, rest3) => .ok (.obj fields, rest3))
    | '[' :: rest =>
        (match skipWs rest with
         | ']' :: rest2 => .ok (.arr [], rest2)
         | rest2 =>
            match readJsonElems fuel rest2 with
            | .error e => .error e
            | .ok (elems, rest3) => .ok (.arr elems, rest3))
    | '"' :: rest =>
        (match readStrChars [] rest with
         | .error e => .error e
         | .ok (s, rest2) => .ok (.str s, rest2))
    | 't' :: 'r' :: 'u' :: 'e' :: rest => .ok (.bool true, rest)
    | 'f' :: 'a' :: 'l' :: 's' :: 'e' :: rest => .ok (.bool false, rest)
    | 'n' :: 'u' :: 'l' :: 'l' :: rest => .ok (.null, rest)
    | '-' :: c :: rest =>
        if c.isDigit then
          let (n, rest2) := readDigits 0 (c :: rest)
          .ok (.num (-(Int.ofNat n)), rest2)
        else .error "Unexpected token - in JSON"
    | c :: rest =>
        if c.isDigit then
          let (n, rest2) := readDigits 0 (c :: rest)
          .ok (.num (Int.ofNat n), rest2)
        else .error ("Unexpected token " ++ String.mk [c] ++ " in JSON")

/-- Object members after `{`, at least one expected. -/
def readJsonMembers : Nat → List Char → Except String (List (String × Json) × List Char)
  | 0, _ => .error "JSON nesting too deep"
  | fuel + 1, cs =>
    match skipWs cs with
    | '"' :: rest =>
        (match readStrChars [] rest with
         | .error e => .error e
         | .ok (k, rest2) =>
            match skipWs rest2 with
            | ':' :: rest3 =>
                (match readJsonVal fuel rest3 with
                 | .error e => .error e
                 | .ok (v, rest4) =>
                    match skipWs rest4 with
                    | ',' :: rest5 =>
                        (match readJsonMembers fuel rest5 with
                         | .error e => .error e
                         | .ok (fs, rest6) => .ok ((k, v) :: fs, rest6))
                    | '\x7d' :: rest5 => .ok ([(k, v)], rest5)
                    | _ => .error "Expected , or end of object in JSON")
            | _ => .error "Expected : in JSON object")
    | _ => .error "Expected string key in JSON object"

/-- Array elements after `[`, at least one expected. -/
def readJsonElems : Nat → List Char → Except String (List Json × List Char)
  | 0, _ => .error "JSON nesting too deep"
  | fuel + 1, cs =>
    match readJsonVal fuel cs with
    | .error e => .error e
    | .ok (v, rest) =>
        match skipWs rest with
        | ',' :: rest2 =>
            (match readJsonElems fuel rest2 with
             | .error e => .error e
             | .ok (vs, rest3) => .ok (v :: vs, rest3))
        | ']' :: rest2 => .ok ([v], rest2)
        | _ => .error "Expected , or ] in JSON array"

end

/-- Model of the host `JSON.parse` builtin: reads one document and
requires only whitespace after it; any violation is a thrown decode
error (`Except.error`). -/
def jsonParse (s : String) : Except String Json :=
  let cs := s.toList
  match readJsonVal (cs.length + 1) cs with
  | .error e => .error e
  | .ok (j, rest) =>
      if skipWs rest = [] then .ok j else .error "Unexpected non-whitespace after JSON"

/-- Escaping used when a string is emitted by `JSON.stringify`. -/
def jsonEscape (s : String) : String :=
  String.join (s.toList.map (fun c =>
    if c = '"' then "\\\""
    else if c = '\\' then "\\\\"
    else if c = '\n' then "\\n"
    else if c = '\t' then "\\t"
    else if c = '\r' then "\\r"
    else String.mk [c]))

/-- Two-space indentation prefix at a nesting depth. -/
def indentSp (n : Nat) : String :=
  String.mk (List.replicate n ' ')

mutual

/-- Model of the host `JSON.stringify(x, null, 2)` builtin at an
indentation depth. -/
def jsonStringifyAt : Json → Nat → String
  | .null, _ => "null"
  | .bool b, _ => if b then "true" else "false"
  | .num n, _ => toString n
  | .str s, _ => "\"" ++ jsonEscape s ++ "\""
  | .arr [], _ => "[]"
  | .arr (x :: xs), d =>
      "[\n" ++ String.intercalate ",\n" (jsonStringifyElems (x :: xs) (d + 2)) ++
        "\n" ++ indentSp d ++ "]"
  | .obj [], _ => "\x7b\x7d"
  | .obj (f :: fs), d =>
      "\x7b\n" ++ String.intercalate ",\n" (jsonStringifyFields (f :: fs) (d + 2)) ++
        "\n" ++ indentSp d ++ "\x7d"

/-- Indented renderings of array elements. -/
def jsonStringifyElems : List Json → Nat → List String
  | [], _ => []
  | x :: xs, d => (indentSp d ++ jsonStringifyAt x d) :: jsonStringifyElems xs d

/-- Indented renderings of object fields. -/
def jsonStringifyFields : List (String × Json) → Nat → List String
  | [], _ => []
  | (k, v) :: fs, d =>
      (indentSp d ++ "\"" ++ jsonEscape k ++ "\": " ++ jsonStringifyAt v d) ::
        jsonStringifyFields fs d

end

/-- Top-level `JSON.stringify(x, null, 2)`. -/
def jsonStringify2 (j : Json) : String :=
  jsonStringifyAt j 0

/-- An outbound HTTP request handed to `fetch`. -/
structure FetchRequest where
  url : String
  method : String
  headers : List (String × String)
  body : Option String
deriving DecidableEq, Repr

/-- A response delivered by `fetch`; `ok` is derived from the status, as
in the Fetch specification. -/
structure FetchResponse where
  status : Nat
  statusText : String
  contentType : Option String
  body : String
deriving DecidableEq, Repr

/-- The `ok` accessor: status in the 2xx range. -/
def FetchResponse.ok (r : FetchResponse) : Bool :=
  200 ≤ r.status && r.status < 300

/-- What the network does with one request: either the `fetch` promise
rejects with a transport error, or a response arrives. -/
inductive FetchOutcome where
  | transportError (msg : String)
  | response (r : FetchResponse)

/-- The network as an oracle: the behaviour of `fetch` on each request. -/
def Oracle := FetchRequest → FetchOutcome

/-- Result of running one tool-call handler: the value returned or the
error thrown, the bearer-token store after the call, and the fetches
issued, in order. -/
structure ToolResult where
  outcome : Except String String
  token : Option String
  calls : List FetchRequest

/-- Base URL constant `LICHESS_API_URL`. -/
def LICHESS_API_URL : String := "https://lichess.org/api"

/-- Falsiness of the `LICHESS_TOKEN` variable (of type
`string | undefined`): falsy when undefined or empty. -/
def tokenFalsy : Option String → Bool
  | none => true
  | some s => s == ""

/-- The request `lichessRequest` builds: default Authorization and
Content-Type headers, then the caller's extra headers (no modelled call
overrides a default header, so spread-merge is an append here). -/
def mkLichessReq (token : Option String) (endpoint method : String)
    (extraHeaders : List (String × String)) (body : Option String) : FetchRequest :=
  { url := LICHESS_API_URL ++ endpoint
    method := method
    headers := [("Authorization", "Bearer " ++ token.getD ""),
                ("Content-Type", "application/json")] ++ extraHeaders
    body := body }

/-- The `lichessRequest` helper (src/index.ts:194-215): throws when no
token is set, performs one `fetch`, and throws
`Lichess API error: <statusText>` on any non-ok status.  Returns the
outcome together with the list of fetches issued. -/
def lichessRequest (oracle : Oracle) (token : Option String) (endpoint method : String)
    (extraHeaders : List (String × String)) (body : Option String) :
    Except String FetchResponse × List FetchRequest :=
  if tokenFalsy token then
    (.error "Lichess API token not set. Use the set_token tool first.", [])
  else
    let req := mkLichessReq token endpoint method extraHeaders body
    match oracle req with
    | .transportError m => (.error m, [req])
    | .response r =>
        if r.ok then (.ok r, [req])
        else (.error ("Lichess API error: " ++ r.statusText), [req])

/-- The `error.message || 'Unknown error'` pattern in catch blocks. -/
def msgOr (m : String) : String :=
  if m == "" then "Unknown error" else m

/-- Model of `URLSearchParams.toString` (percent-encoding is the identity
on every value appended by the modelled handlers). -/
def searchParamsToString (ps : List (String × String)) : String :=
  String.intercalate "&" (ps.map (fun p => p.1 ++ "=" ++ p.2))

/-- Model of `Array.prototype.map` with a callback that may throw: the
callback runs left to right and the first thrown error aborts the whole
map. -/
def jsMapThrow (f : String → Except String Json) : List String → Except String (List Json)
  | [] => .ok []
  | x :: xs =>
      match f x with
      | .error e => .error e
      | .ok y =>
          match jsMapThrow f xs with
          | .error e => .error e
          | .ok ys => .ok (y :: ys)

/-- The lines kept by the NDJSON branches: split the body on `'\n'` and
keep the lines whose trim is nonempty
(`text.split('\n').filter(line => line.trim())`). -/
def retainedLines (text : String) : List String :=
  (jsSplit text '\n').filter (fun l => jsTrim l != "")

/-- The NDJSON decode step shared verbatim by the `get_following` and
`export_user_games` cases:
`text.split('\n').filter(line => line.trim()).map(line => JSON.parse(line))`. -/
def ndjsonDecode (jparse : String → Except String Json) (text : String) :
    Except String (List Json) :=
  jsMapThrow jparse (retainedLines text)

/-- The `set_token` case (src/index.ts:1969-1981).  `String(...)` coerces
an absent argument to the text `"undefined"`, so only an explicit empty
string fails the `if (!token)` check. -/
def set_token_case (args : Args) (token : Option String) : ToolResult :=
  let tok := jsToString (getArg args "token")
  if tok = "" then
    { outcome := .error "Token is required", token := token, calls := [] }
  else
    { outcome := .ok "Lichess API token has been set", token := some tok, calls := [] }

/-- The `get_my_profile` case (src/index.ts:1983-1992). -/
def get_my_profile_case (oracle : Oracle) (token : Option String) : ToolResult :=
  match lichessRequest oracle token "/account" "GET" [] none with
  | (.error e, cs) => { outcome := .error e, token := token, calls := cs }
  | (.ok r, cs) =>
      match jsonParse r.body with
      | .error e => { outcome := .error e, token := token, calls := cs }
      | .ok j => { outcome := .ok (jsonStringify2 j), token := token, calls := cs }

/-- The `make_move` case (src/index.ts:2095-2115): no argument
validation; the coerced `gameId` and `move` go straight into the URL
path (percent-encoding is the identity on the values modelled here). -/
def make_move_case (args : Args) (oracle : Oracle) (token : Option String) : ToolResult :=
  let gameId := jsToString (getArg args "gameId")
  let move := jsToString (getArg args "move")
  let offeringDraw := jsTruthy (getArg args "offeringDraw")
  let endpoint := "/board/game/" ++ gameId ++ "/move/" ++ move ++
    (if offeringDraw then "?offeringDraw=true" else "")
  match lichessRequest oracle token endpoint "POST" [] none with
  | (.error e, cs) => { outcome := .error e, token := token, calls := cs }
  | (.ok _, cs) =>
      { outcome := .ok ("Move " ++ move ++ " made in game " ++ gameId ++
          (if offeringDraw then " with draw offer" else ""))
        token := token, calls := cs }

/-- The raw `fetch` request issued by `revoke_token`. -/
def revokeReq (t : String) : FetchRequest :=
  { url := LICHESS_API_URL ++ "/token"
    method := "DELETE"
    headers := [("Authorization", "Bearer " ++ t)]
    body := none }

/-- The `revoke_token` case (src/index.ts:2179-2209): direct `fetch`
inside a try block; any failure is re-thrown with the token left as it
was, and only a confirmed ok response clears the token.  A thrown
non-ok error is caught by the same catch, so its message carries the
prefix twice. -/
def revoke_token_case (oracle : Oracle) (token : Option String) : ToolResult :=
  if tokenFalsy token then
    { outcome := .error "No token set to revoke. Please set a token first using set_token."
      token := token, calls := [] }
  else
    let req := revokeReq (token.getD "")
    match oracle req with
    | .transportError m =>
        { outcome := .error ("Failed to revoke token: " ++ msgOr m)
          token := token, calls := [req] }
    | .response r =>
        if r.ok then
          { outcome := .ok "Access token has been successfully revoked and cleared"
            token := none, calls := [req] }
        else
          { outcome := .error ("Failed to revoke token: " ++
              msgOr ("Failed to revoke token: " ++ r.statusText))
            token := token, calls := [req] }

/-- The `get_following` case (src/index.ts:2300-2326): NDJSON decode of
the body, all inside a try whose catch re-throws with the
`Failed to get following list:` prefix.  The inner `if (!response.ok)`
is kept even though `lichessRequest` already threw on non-ok. -/
def get_following_case (oracle : Oracle) (token : Option String) : ToolResult :=
  match lichessRequest oracle token "/rel/following" "GET" [] none with
  | (.error e, cs) =>
      { outcome := .error ("Failed to get following list: " ++ msgOr e)
        token := token, calls := cs }
  | (.ok r, cs) =>
      if !r.ok then
        { outcome := .error ("Failed to get following list: " ++
            msgOr ("Failed to get following list: " ++ r.statusText))
          token := token, calls := cs }
      else
        match ndjsonDecode jsonParse r.body with
        | .error e =>
            { outcome := .error ("Failed to get following list: " ++ msgOr e)
              token := token, calls := cs }
        | .ok docs =>
            { outcome := .ok (jsonStringify2 (.arr docs)), token := token, calls := cs }

/-- The `get_users_status` case (src/index.ts:2418-2455). -/
def get_users_status_case (args : Args) (oracle : Oracle) (token : Option String) :
    ToolResult :=
  let ids := jsToString (getArg args "ids")
  if ids = "" then
    { outcome := .error "IDs parameter is required", token := token, calls := [] }
  else if (jsSplit ids ',').length > 100 then
    { outcome := .error "Maximum of 100 user IDs allowed", token := token, calls := [] }
  else
    let withSignal := jsTruthy (getArg args "withSignal")
    let withGameIds := jsTruthy (getArg args "withGameIds")
    let withGameMetas := jsTruthy (getArg args "withGameMetas")
    let ps :=
      (if withSignal then [("withSignal", "true")] else []) ++
      (if withGameIds then [("withGameIds", "true")] else []) ++
      (if withGameMetas then [("withGameMetas", "true")] else [])
    let endpoint := "/users/status?ids=" ++ ids ++ "&" ++ searchParamsToString ps
    match lichessRequest oracle token endpoint "GET" [] none with
    | (.error e, cs) =>
        { outcome := .error ("Failed to get user statuses: " ++ msgOr e)
          token := token, calls := cs }
    | (.ok r, cs) =>
        if !r.ok then
          { outcome := .error ("Failed to get user statuses: " ++
              msgOr ("Failed to get user statuses: " ++ r.statusText))
            token := token, calls := cs }
        else
          match jsonParse r.body with
          | .error e =>
              { outcome := .error ("Failed to get user statuses: " ++ msgOr e)
                token := token, calls := cs }
          | .ok j =>
              { outcome := .ok (jsonStringify2 j), token := token, calls := cs }

/-- The perfType whitelist of `get_leaderboard` (src/index.ts:2474-2478). -/
def validPerfTypes : List String :=
  ["ultraBullet", "bullet", "blitz", "rapid", "classical",
   "chess960", "crazyhouse", "antichess", "atomic", "horde",
   "kingOfTheHill", "racingKings", "threeCheck"]

/-- The `get_leaderboard` case (src/index.ts:2468-2496): note
`Number(arguments?.nb) || 100`, so a missing, zero or non-numeric `nb`
silently becomes 100 before the 1-200 range check. -/
def get_leaderboard_case (args : Args) (oracle : Oracle) (token : Option String) :
    ToolResult :=
  let perfType := jsToString (getArg args "perfType")
  if perfType = "" then
    { outcome := .error "perfType parameter is required", token := token, calls := [] }
  else if perfType ∉ validPerfTypes then
    { outcome := .error ("Invalid perfType. Must be one of: " ++
        String.intercalate ", " validPerfTypes)
      token := token, calls := [] }
  else
    let nb := numOr (jsToNumber (getArg args "nb")) 100
    if nb < 1 ∨ nb > 200 then
      { outcome := .error "nb parameter must be between 1 and 200", token := token, calls := [] }
    else
      match lichessRequest oracle token ("/player/top/" ++ toString nb ++ "/" ++ perfType)
          "GET" [] none with
      | (.error e, cs) => { outcome := .error e, token := token, calls := cs }
      | (.ok r, cs) =>
          match jsonParse r.body with
          | .error e => { outcome := .error e, token := token, calls := cs }
          | .ok j => { outcome := .ok (jsonStringify2 j), token := token, calls := cs }

/-- The `get_user_public_data` case (src/index.ts:2498-2531).  The
`response.status === 404` branch is kept although `lichessRequest`
already threw on every non-ok response, making it unreachable. -/
def get_user_public_data_case (args : Args) (oracle : Oracle) (token : Option String) :
    ToolResult :=
  let username := jsToString (getArg args "username")
  if username = "" then
    { outcome := .error "Username parameter is required", token := token, calls := [] }
  else if jsTrim username = "" then
    { outcome := .error "Username cannot be empty", token := token, calls := [] }
  else
    let withTrophies := jsTruthy (getArg args "withTrophies")
    let ps := if withTrophies then [("trophies", "true")] else []
    let endpoint := "/user/" ++ username ++ "?" ++ searchParamsToString ps
    match lichessRequest oracle token endpoint "GET" [] none with
    | (.error e, cs) =>
        { outcome := .error ("Failed to get user data: " ++ msgOr e)
          token := token, calls := cs }
    | (.ok r, cs) =>
        if !r.ok then
          if r.status == 404 then
            { outcome := .error ("Failed to get user data: " ++
                msgOr ("User " ++ username ++ " not found"))
              token := token, calls := cs }
          else
            { outcome := .error ("Failed to get user data: " ++
                msgOr ("Failed to get user data: " ++ r.statusText))
              token := token, calls := cs }
        else
          match jsonParse r.body with
          | .error e =>
              { outcome := .error ("Failed to get user data: " ++ msgOr e)
                token := token, calls := cs }
          | .ok j =>
              { outcome := .ok (jsonStringify2 j), token := token, calls := cs }

/-- The `get_rating_history` case (src/index.ts:2533-2560), same shape as
`get_user_public_data` (including the unreachable 404 branch). -/
def get_rating_history_case (args : Args) (oracle : Oracle) (token : Option String) :
    ToolResult :=
  let username := jsToString (getArg args "username")
  if username = "" then
    { outcome := .error "Username parameter is required", token := token, calls := [] }
  else if jsTrim username = "" then
    { outcome := .error "Username cannot be empty", token := token, calls := [] }
  else
    match lichessRequest oracle token ("/user/" ++ username ++ "/rating-history")
        "GET" [] none with
    | (.error e, cs) =>
        { outcome := .error ("Failed to get rating history: " ++ msgOr e)
          token := token, calls := cs }
    | (.ok r, cs) =>
        if !r.ok then
          if r.status == 404 then
            { outcome := .error ("Failed to get rating history: " ++
                msgOr ("User " ++ username ++ " not found"))
              token := token, calls := cs }
          else
            { outcome := .error ("Failed to get rating history: " ++
                msgOr ("Failed to get rating history: " ++ r.statusText))
              token := token, calls := cs }
        else
          match jsonParse r.body with
          | .error e =>
              { outcome := .error ("Failed to get rating history: " ++ msgOr e)
                token := token, calls := cs }
          | .ok j =>
              { outcome := .ok (jsonStringify2 j), token := token, calls := cs }

/-- Query parameters collected by the `for (const param of booleanParams)`
loops: a pair is appended exactly when the argument is not `undefined`. -/
def collectPresentParams (args : Args) (names : List String) : List (String × String) :=
  names.filterMap (fun p =>
    match getArg args p with
    | .undefV => none
    | v => some (p, jsToString v))

/-- The `export_game` case (src/index.ts:2676-2723): an 8-character
gameId is required; the response is returned as literal text when the
declared content type includes the PGN media type, otherwise parsed as
JSON; a string result passes through `typeof content === 'string'`
unchanged. -/
def export_game_case (args : Args) (oracle : Oracle) (token : Option String) :
    ToolResult :=
  let gameId := jsToString (getArg args "gameId")
  if gameId = "" ∨ gameId.length ≠ 8 then
    { outcome := .error "Game ID must be exactly 8 characters long", token := token, calls := [] }
  else
    let ps := collectPresentParams args
      ["moves", "pgnInJson", "tags", "clocks", "evals", "accuracy", "opening", "literate"]
    let endpoint := "/game/export/" ++ gameId ++ "?" ++ searchParamsToString ps
    match lichessRequest oracle token endpoint "GET" [] none with
    | (.error e, cs) =>
        { outcome := .error ("Failed to export game: " ++ msgOr e)
          token := token, calls := cs }
    | (.ok r, cs) =>
        if !r.ok then
          if r.status == 404 then
            { outcome := .error ("Failed to export game: " ++
                msgOr ("Game " ++ gameId ++ " not found"))
              token := token, calls := cs }
          else
            { outcome := .error ("Failed to export game: " ++
                msgOr ("Failed to export game: " ++ r.statusText))
              token := token, calls := cs }
        else
          let isPgn :=
            match r.contentType with
            | some ct => strContains ct "application/x-chess-pgn"
            | none => false
          if isPgn then
            { outcome := .ok r.body, token := token, calls := cs }
          else
            match jsonParse r.body with
            | .error e =>
                { outcome := .error ("Failed to export game: " ++ msgOr e)
                  token := token, calls := cs }
            | .ok j =>
                { outcome := .ok (jsonStringify2 j), token := token, calls := cs }

/-- Validation and query building of `export_user_games`
(src/index.ts:2777-2846): timestamp and max checks use JavaScript `<`
(false on NaN), string parameters go through `String(x || '')`, and
boolean parameters are appended when present. -/
def exportUserGamesParams (args : Args) : Except String (List (String × String)) :=
  let since := getArg args "since"
  let sinceCheck : Except String (List (String × String)) :=
    if since ≠ .undefV then
      let n := jsToNumber since
      if jsLtNum n 1356998400070 then
        .error "Since timestamp must be after January 1, 2013"
      else .ok [("since", jsNumToString n)]
    else .ok []
  match sinceCheck with
  | .error e => .error e
  | .ok ps1 =>
    let untl := getArg args "until"
    let untilCheck : Except String (List (String × String)) :=
      if untl ≠ .undefV then
        let n := jsToNumber untl
        if jsLtNum n 1356998400070 then
          .error "Until timestamp must be after January 1, 2013"
        else .ok [("until", jsNumToString n)]
      else .ok []
    match untilCheck with
    | .error e => .error e
    | .ok ps2 =>
      let mx := getArg args "max"
      let maxCheck : Except String (List (String × String)) :=
        if mx ≠ .undefV then
          let n := jsToNumber mx
          if jsLtNum n 1 then
            .error "Max number of games must be at least 1"
          else .ok [("max", jsNumToString n)]
        else .ok []
      match maxCheck with
      | .error e => .error e
      | .ok ps3 =>
        let stringStep : String → Except String (List (String × String)) := fun p =>
          let raw := getArg args p
          let value := jsToString (if jsTruthy raw then raw else .strV "")
          if value = "" then .ok []
          else if p = "color" ∧ value ∉ (["white", "black"] : List String) then
            .error "Color must be either \"white\" or \"black\""
          else if p = "sort" ∧ value ∉ (["dateAsc", "dateDesc"] : List String) then
            .error "Sort must be either \"dateAsc\" or \"dateDesc\""
          else if p = "perfType" ∧
              value ∉ (["ultraBullet", "bullet", "blitz", "rapid", "classical", "correspondence",
                  "chess960", "crazyhouse", "antichess", "atomic", "horde", "kingOfTheHill",
                  "racingKings", "threeCheck"] : List String) then
            .error "Invalid perfType value"
          else .ok [(p, value)]
        let rec goStrings : List String → Except String (List (String × String))
          | [] => .ok []
          | p :: rest =>
              match stringStep p with
              | .error e => .error e
              | .ok ps =>
                  match goStrings rest with
                  | .error e => .error e
                  | .ok rs => .ok (ps ++ rs)
        match goStrings ["vs", "perfType", "color", "players", "sort"] with
        | .error e => .error e
        | .ok ps4 =>
            let ps5 := collectPresentParams args
              ["rated", "analysed", "moves", "tags", "clocks", "evals",
               "accuracy", "opening", "ongoing", "finished", "literate", "lastFen"]
            .ok (ps1 ++ ps2 ++ ps3 ++ ps4 ++ ps5)

/-- The `export_user_games` case (src/index.ts:2777-2883): after
validation, the response is text when the content type declares PGN, an
NDJSON decode when it declares `application/x-ndjson`, and a thrown
`Unexpected response format` otherwise; the catch wraps every failure
with the `Failed to export games:` prefix. -/
def export_user_games_case (args : Args) (oracle : Oracle) (token : Option String) :
    ToolResult :=
  let username := jsToString (getArg args "username")
  if username = "" then
    { outcome := .error "Username parameter is required", token := token, calls := [] }
  else if jsTrim username = "" then
    { outcome := .error "Username cannot be empty", token := token, calls := [] }
  else
    match exportUserGamesParams args with
    | .error e => { outcome := .error e, token := token, calls := [] }
    | .ok ps =>
      let endpoint := "/games/user/" ++ username ++ "?" ++ searchParamsToString ps
      match lichessRequest oracle token endpoint "GET" [] none with
      | (.error e, cs) =>
          { outcome := .error ("Failed to export games: " ++ msgOr e)
            token := token, calls := cs }
      | (.ok r, cs) =>
          if !r.ok then
            if r.status == 404 then
              { outcome := .error ("Failed to export games: " ++
                  msgOr ("User " ++ username ++ " not found"))
                token := token, calls := cs }
            else
              { outcome := .error ("Failed to export games: " ++
                  msgOr ("Failed to export games: " ++ r.statusText))
                token := token, calls := cs }
          else
            let ctContains : String → Bool := fun media =>
              match r.contentType with
              | some ct => strContains ct media
              | none => false
            if ctContains "application/x-chess-pgn" then
              { outcome := .ok r.body, token := token, calls := cs }
            else if ctContains "application/x-ndjson" then
              match ndjsonDecode jsonParse r.body with
              | .error e =>
                  { outcome := .error ("Failed to export games: " ++ msgOr e)
                    token := token, calls := cs }
              | .ok docs =>
                  { outcome := .ok (jsonStringify2 (.arr docs)), token := token, calls := cs }
            else
              { outcome := .error ("Failed to export games: " ++
                  msgOr "Unexpected response format")
                token := token, calls := cs }

/-- The `get_ongoing_games` case (src/index.ts:5191-5216): the range
check sits inside the try, so its message is also wrapped by the catch;
`Number(arguments?.nb) || 9` makes a missing, zero or non-numeric `nb`
silently become 9 (the `isNaN(nb)` test is always false after that
coalescing). -/
def get_ongoing_games_case (args : Args) (oracle : Oracle) (token : Option String) :
    ToolResult :=
  let nb := numOr (jsToNumber (getArg args "nb")) 9
  if nb < 1 ∨ nb > 50 then
    { outcome := .error ("Failed to get ongoing games: " ++
        msgOr "nb parameter must be between 1 and 50")
      token := token, calls := [] }
  else
    match lichessRequest oracle token ("/account/playing?nb=" ++ toString nb) "GET" [] none with
    | (.error e, cs) =>
        { outcome := .error ("Failed to get ongoing games: " ++ msgOr e)
          token := token, calls := cs }
    | (.ok r, cs) =>
        if !r.ok then
          { outcome := .error ("Failed to get ongoing games: " ++
              msgOr ("Failed to get ongoing games: " ++ r.statusText))
            token := token, calls := cs }
        else
          match jsonParse r.body with
          | .error e =>
              { outcome := .error ("Failed to get ongoing games: " ++ msgOr e)
                token := token, calls := cs }
          | .ok j =>
              { outcome := .ok (jsonStringify2 j), token := token, calls := cs }

/-- The modelled slice of the `CallToolRequestSchema` dispatcher
(src/index.ts:1967-5221): the switch cases this development reasons
about, with the default `Unknown tool` branch for every other name. -/
def handleTool (name : String) (args : Args) (oracle : Oracle) (token : Option String) :
    ToolResult :=
  if name == "set_token" then set_token_case args token
  else if name == "get_my_profile" then get_my_profile_case oracle token
  else if name == "make_move" then make_move_case args oracle token
  else if name == "revoke_token" then revoke_token_case oracle token
  else if name == "get_following" then get_following_case oracle token
  else if name == "get_users_status" then get_users_status_case args oracle token
  else if name == "get_leaderboard" then get_leaderboard_case args oracle token
  else if name == "get_user_public_data" then get_user_public_data_case args oracle token
  else if name == "get_rating_history" then get_rating_history_case args oracle token
  else if name == "export_game" then export_game_case args oracle token
  else if name == "export_user_games" then export_user_games_case args oracle token
  else if name == "get_ongoing_games" then get_ongoing_games_case args oracle token
  else { outcome := .error "Unknown tool", token := token, calls := [] }

/-- The modelled tools that require the stored token: every case routed
through `lichessRequest`, plus `revoke_token`. -/
def authTools : List String :=
  ["get_my_profile", "make_move", "revoke_token", "get_following", "get_users_status",
   "get_leaderboard", "get_user_public_data", "get_rating_history", "export_game",
   "export_user_games", "get_ongoing_games"]

/-- Classification of a thrown message as the MissingCredential kind of
the spec's error taxonomy: the `lichessRequest` token guard text
(possibly wrapped by a catch-block prefix) or the `revoke_token` guard
text. -/
def missingCredMsg (m : String) : Bool :=
  strContains m "Lichess API token not set" || strContains m "No token set to revoke"

/-- A handler outcome that is a MissingCredential failure issued before
any network call. -/
def missingCred (r : ToolResult) : Prop :=
  r.calls = [] ∧ ∃ m, r.outcome = .error m ∧ missingCredMsg m = true

/-- A generic successful JSON response (body `{}`). -/
def okResp : FetchResponse :=
  { status := 200, statusText := "OK", contentType := none, body := "\x7b\x7d" }

/-- A network that answers every request with `okResp`. -/
def oracleOk : Oracle := fun _ => .response okResp

/-- A 404 response as Lichess returns it for an unknown resource. -/
def notFoundResp : FetchResponse :=
  { status := 404, statusText := "Not Found", contentType := none, body := "" }

/-- A network that answers every request with a 404. -/
def oracle404 : Oracle := fun _ => .response notFoundResp

/-- A network on which every `fetch` rejects with a transport error. -/
def oracleDown : Oracle := fun _ => .transportError "fetch failed"

/-- An NDJSON response whose body is the specification's example
`"{\"a\":1}\n\n{\"a\":2}\n"`. -/
def ndResp : FetchResponse :=
  { status := 200, statusText := "OK", contentType := some "application/x-ndjson",
    body := "\x7b\"a\":1\x7d\n\n\x7b\"a\":2\x7d\n" }

/-- A network that answers every request with `ndResp`. -/
def oracleNd : Oracle := fun _ => .response ndResp

/-- An NDJSON response with one malformed line. -/
def badNdResp : FetchResponse :=
  { status := 200, statusText := "OK", contentType := some "application/x-ndjson",
    body := "\x7b\"a\":1\x7d\nnotjson\n" }

/-- A network that answers every request with `badNdResp`. -/
def oracleBadNd : Oracle := fun _ => .response badNdResp

/-- A PGN response whose body is the specification's example game text. -/
def pgnResp : FetchResponse :=
  { status := 200, statusText := "OK", contentType := some "application/x-chess-pgn",
    body := "1. e4 e5 *" }

/-- A network that answers every request with `pgnResp`. -/
def oraclePgn : Oracle := fun _ => .response pgnResp

/-- With a falsy token, `lichessRequest` throws its guard message and
issues no fetch. -/
theorem lr_falsy (oracle : Oracle) (token : Option String) (e m : String)
    (hs : List (String × String)) (b : Option String) (hf : tokenFalsy token = true) :
    lichessRequest oracle token e m hs b =
      (.error "Lichess API token not set. Use the set_token tool first.", []) := by
  simp [lichessRequest, hf]

/-- `lichessRequest` issues either no fetch or exactly the one request it
builds. -/
theorem lr_snd (oracle : Oracle) (tok : Option String) (e m : String)
    (hs : List (String × String)) (b : Option String) :
    (lichessRequest oracle tok e m hs b).2 = [] ∨
    (lichessRequest oracle tok e m hs b).2 = [mkLichessReq tok e m hs b] := by
  unfold lichessRequest
  split
  · exact Or.inl rfl
  · dsimp only
    cases oracle (mkLichessReq tok e m hs b)
    · exact Or.inr rfl
    · dsimp only
      split
      · exact Or.inr rfl
      · exact Or.inr rfl

/-- With a token present, `lichessRequest` issues exactly its one built
request, whatever the network does. -/
theorem lr_snd_present (oracle : Oracle) (tok : Option String) (e m : String)
    (hs : List (String × String)) (b : Option String) (htok : tokenFalsy tok = false) :
    (lichessRequest oracle tok e m hs b).2 = [mkLichessReq tok e m hs b] := by
  unfold lichessRequest
  rw [if_neg (by simp [htok])]
  dsimp only
  cases oracle (mkLichessReq tok e m hs b)
  · rfl
  · dsimp only
    split
    · rfl
    · rfl

/-- Every request `lichessRequest` issues with stored token `t` carries
the `Authorization: Bearer t` header. -/
theorem lr_mem_auth {oracle : Oracle} {t e m : String} {hs : List (String × String)}
    {b : Option String} {res : Except String FetchResponse} {cs : List FetchRequest}
    (heq : lichessRequest oracle (some t) e m hs b = (res, cs))
    {req : FetchRequest} (hreq : req ∈ cs) :
    ("Authorization", "Bearer " ++ t) ∈ req.headers := by
  have h2 : cs = (lichessRequest oracle (some t) e m hs b).2 := by rw [heq]
  rcases lr_snd oracle (some t) e m hs b with h | h
  · rw [h2, h] at hreq; cases hreq
  · rw [h2, h] at hreq
    have h3 := List.mem_singleton.mp hreq
    subst h3
    exact List.mem_cons_self _ _

/-- A throwing map that returns a list parsed every element in order. -/
theorem jsMapThrow_ok {f : String → Except String Json} :
    ∀ {l : List String} {res : List Json}, jsMapThrow f l = .ok res →
      res.length = l.length ∧
      ∀ i (h1 : i < l.length) (h2 : i < res.length),
        f (l.get ⟨i, h1⟩) = .ok (res.get ⟨i, h2⟩) := by
  intro l
  induction l with
  | nil =>
      intro res h
      cases h
      exact ⟨rfl, fun i h1 _ => absurd h1 (Nat.not_lt_zero i)⟩
  | cons x xs ih =>
      intro res h
      unfold jsMapThrow at h
      cases hfx : f x with
      | error e => rw [hfx] at h; cases h
      | ok y =>
          rw [hfx] at h
          cases hrest : jsMapThrow f xs with
          | error e => rw [hrest] at h; cases h
          | ok ys =>
              rw [hrest] at h
              cases h
              rcases ih hrest with ⟨hlen, hidx⟩
              refine ⟨by simp [hlen], ?_⟩
              intro i h1 h2
              cases i with
              | zero => exact hfx
              | succ j =>
                  exact hidx j (Nat.lt_of_succ_lt_succ h1) (Nat.lt_of_succ_lt_succ h2)

/-- A throwing map fails as a whole as soon as one element fails. -/
theorem jsMapThrow_error_of_mem {f : String → Except String Json} :
    ∀ {l : List String} {x : String} {e : String}, x ∈ l → f x = .error e →
      ∃ e2, jsMapThrow f l = .error e2 := by
  intro l
  induction l with
  | nil => intro x e hx; cases hx
  | cons a as ih =>
      intro x e hx he
      cases hfa : f a with
      | error m => exact ⟨m, by simp [jsMapThrow, hfa]⟩
      | ok y =>
          cases hx with
          | head => rw [he] at hfa; cases hfa
          | tail _ hx =>
              rcases ih hx he with ⟨e2, h2⟩
              exact ⟨e2, by simp [jsMapThrow, hfa, h2]⟩

/-- `set_token` never issues a fetch. -/
theorem set_token_calls_nil (args : Args) (token : Option String) :
    (set_token_case args token).calls = [] := by
  unfold set_token_case
  dsimp only
  split <;> rfl

/-- `get_my_profile` leaves the token store unchanged. -/
theorem gmp_frame (oracle : Oracle) (token : Option String) :
    (get_my_profile_case oracle token).token = token := by
  unfold get_my_profile_case
  try dsimp only
  repeat' split
  all_goals rfl

/-- `make_move` leaves the token store unchanged. -/
theorem mm_frame (args : Args) (oracle : Oracle) (token : Option String) :
    (make_move_case args oracle token).token = token := by
  unfold make_move_case
  try dsimp only
  repeat' split
  all_goals rfl

/-- `get_following` leaves the token store unchanged. -/
theorem gf_frame (oracle : Oracle) (token : Option String) :
    (get_following_case oracle token).token = token := by
  unfold get_following_case
  try dsimp only
  repeat' split
  all_goals rfl

/-- `get_users_status` leaves the token store unchanged. -/
theorem gus_frame (args : Args) (oracle : Oracle) (token : Option String) :
    (get_users_status_case args oracle token).token = token := by
  unfold get_users_status_case
  try dsimp only
  repeat' split
  all_goals rfl

/-- `get_leaderboard` leaves the token store unchanged. -/
theorem glb_frame (args : Args) (oracle : Oracle) (token : Option String) :
    (get_leaderboard_case args oracle token).token = token := by
  unfold get_leaderboard_case
  try dsimp only
  repeat' split
  all_goals rfl

/-- `get_user_public_data` leaves the token store unchanged. -/
theorem gupd_frame (args : Args) (oracle : Oracle) (token : Option String) :
    (get_user_public_data_case args oracle token).token = token := by
  unfold get_user_public_data_case
  try dsimp only
  repeat' split
  all_goals rfl

/-- `get_rating_history` leaves the token store unchanged. -/
theorem grh_frame (args : Args) (oracle : Oracle) (token : Option String) :
    (get_rating_history_case args oracle token).token = token := by
  unfold get_rating_history_case
  try dsimp only
  repeat' split
  all_goals rfl

/-- `export_game` leaves the token store unchanged. -/
theorem eg_frame (args : Args) (oracle : Oracle) (token : Option String) :
    (export_game_case args oracle token).token = token := by
  unfold export_game_case
  try dsimp only
  repeat' split
  all_goals rfl

/-- `export_user_games` leaves the token store unchanged. -/
theorem eug_frame (args : Args) (oracle : Oracle) (token : Option String) :
    (export_user_games_case args oracle token).token = token := by
  unfold export_user_games_case
  try dsimp only
  repeat' split
  all_goals rfl

/-- `get_ongoing_games` leaves the token store unchanged. -/
theorem gog_frame (args : Args) (oracle : Oracle) (token : Option String) :
    (get_ongoing_games_case args oracle token).token = token := by
  unfold get_ongoing_games_case
  try dsimp only
  repeat' split
  all_goals rfl

/-- Every fetch of `get_my_profile` carries the stored bearer token. -/
theorem gmp_auth (oracle : Oracle) (t : String) :
    ∀ req ∈ (get_my_profile_case oracle (some t)).calls,
      ("Authorization", "Bearer " ++ t) ∈ req.headers := by
  unfold get_my_profile_case
  try dsimp only
  repeat' split
  all_goals intro req hreq
  all_goals first
    | exact absurd hreq (List.not_mem_nil req)
    | exact lr_mem_auth (by assumption) hreq

/-- Every fetch of `make_move` carries the stored bearer token. -/
theorem mm_auth (args : Args) (oracle : Oracle) (t : String) :
    ∀ req ∈ (make_move_case args oracle (some t)).calls,
      ("Authorization", "Bearer " ++ t) ∈ req.headers := by
  unfold make_move_case
  try dsimp only
  repeat' split
  all_goals intro req hreq
  all_goals first
    | exact absurd hreq (List.not_mem_nil req)
    | exact lr_mem_auth (by assumption) hreq

/-- Every fetch of `revoke_token` carries the stored bearer token. -/
theorem rvk_auth (oracle : Oracle) (t : String) :
    ∀ req ∈ (revoke_token_case oracle (some t)).calls,
      ("Authorization", "Bearer " ++ t) ∈ req.headers := by
  unfold revoke_token_case
  try dsimp only
  repeat' split
  all_goals intro req hreq
  all_goals first
    | exact absurd hreq (List.not_mem_nil req)
    | (have h3 := List.mem_singleton.mp hreq; subst h3; exact List.mem_cons_self _ _)

/-- Every fetch of `get_following` carries the stored bearer token. -/
theorem gf_auth (oracle : Oracle) (t : String) :
    ∀ req ∈ (get_following_case oracle (some t)).calls,
      ("Authorization", "Bearer " ++ t) ∈ req.headers := by
  unfold get_following_case
  try dsimp only
  repeat' split
  all_goals intro req hreq
  all_goals first
    | exact absurd hreq (List.not_mem_nil req)
    | exact lr_mem_auth (by assumption) hreq

/-- Every fetch of `get_users_status` carries the stored bearer token. -/
theorem gus_auth (args : Args) (oracle : Oracle) (t : String) :
    ∀ req ∈ (get_users_status_case args oracle (some t)).calls,
      ("Authorization", "Bearer " ++ t) ∈ req.headers := by
  unfold get_users_status_case
  try dsimp only
  repeat' split
  all_goals intro req hreq
  all_goals first
    | exact absurd hreq (List.not_mem_nil req)
    | exact lr_mem_auth (by assumption) hreq

/-- Every fetch of `get_leaderboard` carries the stored bearer token. -/
theorem glb_auth (args : Args) (oracle : Oracle) (t : String) :
    ∀ req ∈ (get_leaderboard_case args oracle (some t)).calls,
      ("Authorization", "Bearer " ++ t) ∈ req.headers := by
  unfold get_leaderboard_case
  try dsimp only
  repeat' split
  all_goals intro req hreq
  all_goals first
    | exact absurd hreq (List.not_mem_nil req)
    | exact lr_mem_auth (by assumption) hreq

/-- Every fetch of `get_user_public_data` carries the stored bearer token. -/
theorem gupd_auth (args : Args) (oracle : Oracle) (t : String) :
    ∀ req ∈ (get_user_public_data_case args oracle (some t)).calls,
      ("Authorization", "Bearer " ++ t) ∈ req.headers := by
  unfold get_user_public_data_case
  try dsimp only
  repeat' split
  all_goals intro req hreq
  all_goals first
    | exact absurd hreq (List.not_mem_nil req)
    | exact lr_mem_auth (by assumption) hreq

/-- Every fetch of `get_rating_history` carries the stored bearer token. -/
theorem grh_auth (args : Args) (oracle : Oracle) (t : String) :
    ∀ req ∈ (get_rating_history_case args oracle (some t)).calls,
      ("Authorization", "Bearer " ++ t) ∈ req.headers := by
  unfold get_rating_history_case
  try dsimp only
  repeat' split
  all_goals intro req hreq
  all_goals first
    | exact absurd hreq (List.not_mem_nil req)
    | exact lr_mem_auth (by assumption) hreq

/-- Every fetch of `export_game` carries the stored bearer token. -/
theorem eg_auth (args : Args) (oracle : Oracle) (t : String) :
    ∀ req ∈ (export_game_case args oracle (some t)).calls,
      ("Authorization", "Bearer " ++ t) ∈ req.headers := by
  unfold export_game_case
  try dsimp only
  repeat' split
  all_goals intro req hreq
  all_goals first
    | exact absurd hreq (List.not_mem_nil req)
    | exact lr_mem_auth (by assumption) hreq

/-- Every fetch of `export_user_games` carries the stored bearer token. -/
theorem eug_auth (args : Args) (oracle : Oracle) (t : String) :
    ∀ req ∈ (export_user_games_case args oracle (some t)).calls,
      ("Authorization", "Bearer " ++ t) ∈ req.headers := by
  unfold export_user_games_case
  try dsimp only
  repeat' split
  all_goals intro req hreq
  all_goals first
    | exact absurd hreq (List.not_mem_nil req)
    | exact lr_mem_auth (by assumption) hreq

/-- Every fetch of `get_ongoing_games` carries the stored bearer token. -/
theorem gog_auth (args : Args) (oracle : Oracle) (t : String) :
    ∀ req ∈ (get_ongoing_games_case args oracle (some t)).calls,
      ("Authorization", "Bearer " ++ t) ∈ req.headers := by
  unfold get_ongoing_games_case
  try dsimp only
  repeat' split
  all_goals intro req hreq
  all_goals first
    | exact absurd hreq (List.not_mem_nil req)
    | exact lr_mem_auth (by assumption) hreq

/-- With a falsy token, `get_my_profile` is a MissingCredential failure
with no fetch. -/
theorem gmp_missing (oracle : Oracle) (token : Option String)
    (hf : tokenFalsy token = true) :
    missingCred (get_my_profile_case oracle token) := by
  simp only [get_my_profile_case, lr_falsy _ _ _ _ _ _ hf]
  exact ⟨rfl, _, rfl, by decide⟩

/-- With a falsy token, `make_move` is a MissingCredential failure with
no fetch. -/
theorem mm_missing (args : Args) (oracle : Oracle) (token : Option String)
    (hf : tokenFalsy token = true) :
    missingCred (make_move_case args oracle token) := by
  simp only [make_move_case, lr_falsy _ _ _ _ _ _ hf]
  exact ⟨rfl, _, rfl, by decide⟩

/-- With a falsy token, `revoke_token` is a MissingCredential failure
with no fetch. -/
theorem rvk_missing (oracle : Oracle) (token : Option String)
    (hf : tokenFalsy token = true) :
    missingCred (revoke_token_case oracle token) := by
  simp only [revoke_token_case, hf, if_true]
  exact ⟨rfl, _, rfl, by decide⟩

/-- With a falsy token, `get_following` is a MissingCredential failure
with no fetch. -/
theorem gf_missing (oracle : Oracle) (token : Option String)
    (hf : tokenFalsy token = true) :
    missingCred (get_following_case oracle token) := by
  simp only [get_following_case, lr_falsy _ _ _ _ _ _ hf]
  exact ⟨rfl, _, rfl, by decide⟩

/-- With a falsy token, a `get_users_status` invocation whose arguments
pass validation (witnessed by a probe invocation that issues a fetch) is
a MissingCredential failure with no fetch. -/
theorem gus_missing (args : Args) (oracle oracle2 : Oracle) (token probe : Option String)
    (hf : tokenFalsy token = true)
    (hv : (get_users_status_case args oracle2 probe).calls ≠ []) :
    missingCred (get_users_status_case args oracle token) := by
  by_cases h1 : jsToString (getArg args "ids") = ""
  · exact absurd (by simp [get_users_status_case, h1]) hv
  · by_cases h2 : (jsSplit (jsToString (getArg args "ids")) ',').length > 100
    · exact absurd (by simp [get_users_status_case, h1, h2]) hv
    · simp only [get_users_status_case, h1, h2, if_false, lr_falsy _ _ _ _ _ _ hf]
      exact ⟨rfl, _, rfl, by decide⟩

/-- With a falsy token, a `get_leaderboard` invocation whose arguments
pass validation is a MissingCredential failure with no fetch. -/
theorem glb_missing (args : Args) (oracle oracle2 : Oracle) (token probe : Option String)
    (hf : tokenFalsy token = true)
    (hv : (get_leaderboard_case args oracle2 probe).calls ≠ []) :
    missingCred (get_leaderboard_case args oracle token) := by
  by_cases h1 : jsToString (getArg args "perfType") = ""
  · exact absurd (by simp [get_leaderboard_case, h1]) hv
  · by_cases h2 : jsToString (getArg args "perfType") ∈ validPerfTypes
    · by_cases h3 : numOr (jsToNumber (getArg args "nb")) 100 < 1 ∨
        numOr (jsToNumber (getArg args "nb")) 100 > 200
      · exact absurd (by simp [get_leaderboard_case, h1, h2, h3]) hv
      · simp only [get_leaderboard_case, h1, h2, h3, not_true, not_false_iff,
          if_false, if_true, lr_falsy _ _ _ _ _ _ hf]
        exact ⟨rfl, _, rfl, by decide⟩
    · exact absurd (by simp [get_leaderboard_case, h1, h2]) hv

/-- With a falsy token, a `get_user_public_data` invocation whose
arguments pass validation is a MissingCredential failure with no fetch. -/
theorem gupd_missing (args : Args) (oracle oracle2 : Oracle) (token probe : Option String)
    (hf : tokenFalsy token = true)
    (hv : (get_user_public_data_case args oracle2 probe).calls ≠ []) :
    missingCred (get_user_public_data_case args oracle token) := by
  by_cases h1 : jsToString (getArg args "username") = ""
  · exact absurd (by simp [get_user_public_data_case, h1]) hv
  · by_cases h2 : jsTrim (jsToString (getArg args "username")) = ""
    · exact absurd (by simp [get_user_public_data_case, h1, h2]) hv
    · simp only [get_user_public_data_case, h1, h2, if_false, lr_falsy _ _ _ _ _ _ hf]
      exact ⟨rfl, _, rfl, by decide⟩

/-- With a falsy token, a `get_rating_history` invocation whose arguments
pass validation is a MissingCredential failure with no fetch. -/
theorem grh_missing (args : Args) (oracle oracle2 : Oracle) (token probe : Option String)
    (hf : tokenFalsy token = true)
    (hv : (get_rating_history_case args oracle2 probe).calls ≠ []) :
    missingCred (get_rating_history_case args oracle token) := by
  by_cases h1 : jsToString (getArg args "username") = ""
  · exact absurd (by simp [get_rating_history_case, h1]) hv
  · by_cases h2 : jsTrim (jsToString (getArg args "username")) = ""
    · exact absurd (by simp [get_rating_history_case, h1, h2]) hv
    · simp only [get_rating_history_case, h1, h2, if_false, lr_falsy _ _ _ _ _ _ hf]
      exact ⟨rfl, _, rfl, by decide⟩

/-- With a falsy token, an `export_game` invocation whose arguments pass
validation is a MissingCredential failure with no fetch. -/
theorem eg_missing (args : Args) (oracle oracle2 : Oracle) (token probe : Option String)
    (hf : tokenFalsy token = true)
    (hv : (export_game_case args oracle2 probe).calls ≠ []) :
    missingCred (export_game_case args oracle token) := by
  by_cases h1 : jsToString (getArg args "gameId") = "" ∨
      (jsToString (getArg args "gameId")).length ≠ 8
  · exact absurd (by simp [export_game_case, h1]) hv
  · simp only [export_game_case, h1, if_false, lr_falsy _ _ _ _ _ _ hf]
    exact ⟨rfl, _, rfl, by decide⟩

/-- With a falsy token, an `export_user_games` invocation whose arguments
pass validation is a MissingCredential failure with no fetch. -/
theorem eug_missing (args : Args) (oracle oracle2 : Oracle) (token probe : Option String)
    (hf : tokenFalsy token = true)
    (hv : (export_user_games_case args oracle2 probe).calls ≠ []) :
    missingCred (export_user_games_case args oracle token) := by
  by_cases h1 : jsToString (getArg args "username") = ""
  · exact absurd (by simp [export_user_games_case, h1]) hv
  · by_cases h2 : jsTrim (jsToString (getArg args "username")) = ""
    · exact absurd (by simp [export_user_games_case, h1, h2]) hv
    · cases hE : exportUserGamesParams args with
      | error e => exact absurd (by simp [export_user_games_case, h1, h2, hE]) hv
      | ok ps =>
          simp only [export_user_games_case, h1, h2, if_false, hE,
            lr_falsy _ _ _ _ _ _ hf]
          exact ⟨rfl, _, rfl, by decide⟩

/-- With a falsy token, a `get_ongoing_games` invocation whose arguments
pass validation is a MissingCredential failure with no fetch. -/
theorem gog_missing (args : Args) (oracle oracle2 : Oracle) (token probe : Option String)
    (hf : tokenFalsy token = true)
    (hv : (get_ongoing_games_case args oracle2 probe).calls ≠ []) :
    missingCred (get_ongoing_games_case args oracle token) := by
  by_cases h1 : numOr (jsToNumber (getArg args "nb")) 9 < 1 ∨
      numOr (jsToNumber (getArg args "nb")) 9 > 50
  · exact absurd (by simp [get_ongoing_games_case, h1]) hv
  · simp only [get_ongoing_games_case, h1, if_false, lr_falsy _ _ _ _ _ _ hf]
    exact ⟨rfl, _, rfl, by decide⟩

/-- Dispatcher-level token frame: every modelled case other than
`set_token` and `revoke_token` leaves the token store unchanged. -/
theorem handle_frame (name : String) (args : Args) (oracle : Oracle) (token : Option String)
    (h1 : name ≠ "set_token") (h2 : name ≠ "revoke_token") :
    (handleTool name args oracle token).token = token := by
  unfold handleTool
  rw [if_neg (by simp [h1])]
  by_cases g2 : name = "get_my_profile"
  · rw [if_pos (by simp [g2])]
    exact gmp_frame oracle token
  rw [if_neg (by simp [g2])]
  by_cases g3 : name = "make_move"
  · rw [if_pos (by simp [g3])]
    exact mm_frame args oracle token
  rw [if_neg (by simp [g3]), if_neg (by simp [h2])]
  by_cases g5 : name = "get_following"
  · rw [if_pos (by simp [g5])]
    exact gf_frame oracle token
  rw [if_neg (by simp [g5])]
  by_cases g6 : name = "get_users_status"
  · rw [if_pos (by simp [g6])]
    exact gus_frame args oracle token
  rw [if_neg (by simp [g6])]
  by_cases g7 : name = "get_leaderboard"
  · rw [if_pos (by simp [g7])]
    exact glb_frame args oracle token
  rw [if_neg (by simp [g7])]
  by_cases g8 : name = "get_user_public_data"
  · rw [if_pos (by simp [g8])]
    exact gupd_frame args oracle token
  rw [if_neg (by simp [g8])]
  by_cases g9 : name = "get_rating_history"
  · rw [if_pos (by simp [g9])]
    exact grh_frame args oracle token
  rw [if_neg (by simp [g9])]
  by_cases g10 : name = "export_game"
  · rw [if_pos (by simp [g10])]
    exact eg_frame args oracle token
  rw [if_neg (by simp [g10])]
  by_cases g11 : name = "export_user_games"
  · rw [if_pos (by simp [g11])]
    exact eug_frame args oracle token
  rw [if_neg (by simp [g11])]
  by_cases g12 : name = "get_ongoing_games"
  · rw [if_pos (by simp [g12])]
    exact gog_frame args oracle token
  rw [if_neg (by simp [g12])]

/-- Dispatcher-level bearer round-trip: with stored token `t`, every
fetch any modelled case issues carries `Authorization: Bearer t`. -/
theorem handle_auth (name : String) (args : Args) (oracle : Oracle) (t : String) :
    ∀ req ∈ (handleTool name args oracle (some t)).calls,
      ("Authorization", "Bearer " ++ t) ∈ req.headers := by
  unfold handleTool
  by_cases g1 : name = "set_token"
  · rw [if_pos (by simp [g1])]
    intro req hreq
    rw [set_token_calls_nil] at hreq
    cases hreq
  rw [if_neg (by simp [g1])]
  by_cases g2 : name = "get_my_profile"
  · rw [if_pos (by simp [g2])]
    exact gmp_auth oracle t
  rw [if_neg (by simp [g2])]
  by_cases g3 : name = "make_move"
  · rw [if_pos (by simp [g3])]
    exact mm_auth args oracle t
  rw [if_neg (by simp [g3])]
  by_cases g4 : name = "revoke_token"
  · rw [if_pos (by simp [g4])]
    exact rvk_auth oracle t
  rw [if_neg (by simp [g4])]
  by_cases g5 : name = "get_following"
  · rw [if_pos (by simp [g5])]
    exact gf_auth oracle t
  rw [if_neg (by simp [g5])]
  by_cases g6 : name = "get_users_status"
  · rw [if_pos (by simp [g6])]
    exact gus_auth args oracle t
  rw [if_neg (by simp [g6])]
  by_cases g7 : name = "get_leaderboard"
  · rw [if_pos (by simp [g7])]
    exact glb_auth args oracle t
  rw [if_neg (by simp [g7])]
  by_cases g8 : name = "get_user_public_data"
  · rw [if_pos (by simp [g8])]
    exact gupd_auth args oracle t
  rw [if_neg (by simp [g8])]
  by_cases g9 : name = "get_rating_history"
  · rw [if_pos (by simp [g9])]
    exact grh_auth args oracle t
  rw [if_neg (by simp [g9])]
  by_cases g10 : name = "export_game"
  · rw [if_pos (by simp [g10])]
    exact eg_auth args oracle t
  rw [if_neg (by simp [g10])]
  by_cases g11 : name = "export_user_games"
  · rw [if_pos (by simp [g11])]
    exact eug_auth args oracle t
  rw [if_neg (by simp [g11])]
  by_cases g12 : name = "get_ongoing_games"
  · rw [if_pos (by simp [g12])]
    exact gog_auth args oracle t
  rw [if_neg (by simp [g12])]
  intro req hreq
  cases hreq

/-- Dispatcher-level MissingCredential guarantee: with a falsy stored
token, every token-requiring case whose arguments pass validation
(witnessed by any probe invocation that issues a fetch) fails with the
MissingCredential message and issues no fetch. -/
theorem handle_missing (name : String) (hmem : name ∈ authTools) (args : Args)
    (oracle oracle2 : Oracle) (token probe : Option String)
    (hf : tokenFalsy token = true)
    (hv : (handleTool name args oracle2 probe).calls ≠ []) :
    missingCred (handleTool name args oracle token) := by
  fin_cases hmem
  · exact gmp_missing oracle token hf
  · exact mm_missing args oracle token hf
  · exact rvk_missing oracle token hf
  · exact gf_missing oracle token hf
  · exact gus_missing args oracle oracle2 token probe hf hv
  · exact glb_missing args oracle oracle2 token probe hf hv
  · exact gupd_missing args oracle oracle2 token probe hf hv
  · exact grh_missing args oracle oracle2 token probe hf hv
  · exact eg_missing args oracle oracle2 token probe hf hv
  · exact eug_missing args oracle oracle2 token probe hf hv
  · exact gog_missing args oracle oracle2 token probe hf hv

/-- C1: contrary to the claim, a required argument that is absent does
not raise a validation error, because `String(undefined)` is the truthy
text `"undefined"`: `set_token` without a token succeeds and stores the
token `"undefined"`; `make_move` without `gameId`/`move` issues a fetch
to `/board/game/undefined/move/undefined` and reports success;
`get_users_status` without `ids` issues a fetch with `ids=undefined`. -/
theorem c1_required_args_bypass_validation :
    handleTool "set_token" [] oracleOk (some "old") =
      { outcome := .ok "Lichess API token has been set",
        token := some "undefined", calls := [] } ∧
    (handleTool "make_move" [] oracleOk (some "tok")).calls =
      [mkLichessReq (some "tok") "/board/game/undefined/move/undefined" "POST" [] none] ∧
    (handleTool "make_move" [] oracleOk (some "tok")).outcome =
      .ok "Move undefined made in game undefined" ∧
    (handleTool "get_users_status" [] oracleOk (some "tok")).calls =
      [mkLichessReq (some "tok") "/users/status?ids=undefined&" "GET" [] none] :=
  ⟨rfl, rfl, rfl, rfl⟩

/-- C2: contrary to the claim, a remote 404 on a user lookup produces
the message `Failed to ...: Lichess API error: Not Found`, which does
not contain the requested username: `lichessRequest` throws
`Lichess API error: <statusText>` on every non-ok status before the
per-case `status === 404` branch (which would name the user) can run. -/
theorem c2_notfound_message_lacks_username :
    (handleTool "get_user_public_data" [("username", .strV "thibault")] oracle404
        (some "tok")).outcome =
      .error "Failed to get user data: Lichess API error: Not Found" ∧
    strContains "Failed to get user data: Lichess API error: Not Found" "thibault" = false ∧
    (handleTool "get_rating_history" [("username", .strV "thibault")] oracle404
        (some "tok")).outcome =
      .error "Failed to get rating history: Lichess API error: Not Found" ∧
    strContains "Failed to get rating history: Lichess API error: Not Found" "thibault"
      = false :=
  ⟨rfl, by decide, rfl, by decide⟩

/-- C3: with a falsy stored token, every token-requiring tool whose
arguments pass its validation (witnessed by a probe invocation that
reaches the network stage) fails with the MissingCredential message and
issues zero network calls. -/
theorem c3_missing_token_missing_credential :
    ∀ name ∈ authTools,
      ∀ (args : Args) (oracle oracle2 : Oracle) (token probe : Option String),
        tokenFalsy token = true →
        (handleTool name args oracle2 probe).calls ≠ [] →
        missingCred (handleTool name args oracle token) :=
  fun name hmem args oracle oracle2 token probe hf hv =>
    handle_missing name hmem args oracle oracle2 token probe hf hv

/-- Witness for C3 at `get_users_status` with `ids = "bob"` and an empty
credential store. -/
theorem c3_missing_token_witness :
    missingCred (handleTool "get_users_status" [("ids", .strV "bob")] oracleOk none) :=
  c3_missing_token_missing_credential "get_users_status" (by decide)
    [("ids", .strV "bob")] oracleOk oracleOk none (some "x") (by decide) (by decide)

/-- C5: NDJSON normalization splits the body on line breaks, discards
blank lines and parses each remaining line independently, in line
order; on the example body the result is the sequence
`[{a:1},{a:2}]`; a malformed line fails the whole decode, and at the
invocation level `get_following` then throws while `export_user_games`
returns the serialized record sequence on the well-formed body. -/
theorem c5_ndjson_normalization :
    ndjsonDecode jsonParse "\x7b\"a\":1\x7d\n\n\x7b\"a\":2\x7d\n" =
      .ok [.obj [("a", .num 1)], .obj [("a", .num 2)]] ∧
    (∀ (jp : String → Except String Json) (text : String) (docs : List Json),
      ndjsonDecode jp text = .ok docs →
      docs.length = (retainedLines text).length ∧
      ∀ i (h1 : i < (retainedLines text).length) (h2 : i < docs.length),
        jp ((retainedLines text).get ⟨i, h1⟩) = .ok (docs.get ⟨i, h2⟩)) ∧
    (∀ (jp : String → Except String Json) (text l e : String),
      l ∈ retainedLines text → jp l = .error e →
      ∃ e2, ndjsonDecode jp text = .error e2) ∧
    (handleTool "get_following" [] oracleBadNd (some "t")).outcome =
      .error "Failed to get following list: Unexpected token n in JSON" ∧
    (handleTool "export_user_games" [("username", .strV "bob")] oracleNd (some "t")).outcome =
      .ok (jsonStringify2 (.arr [.obj [("a", .num 1)], .obj [("a", .num 2)]])) := by
  refine ⟨rfl, ?_, ?_, rfl, rfl⟩
  · intro jp text docs h
    exact jsMapThrow_ok h
  · intro jp text l e hl he
    exact jsMapThrow_error_of_mem hl he

/-- Witness for C5: a body consisting of one malformed line makes the
whole NDJSON decode fail. -/
theorem c5_ndjson_witness :
    ∃ e2, ndjsonDecode jsonParse "notjson" = Except.error e2 :=
  c5_ndjson_normalization.2.2.1 jsonParse "notjson" "notjson"
    "Unexpected token n in JSON" (by decide) (by rfl)

/-- C4: `revoke_token` is atomic on the stored token: a transport error
or a non-ok status leaves the previously stored token in place and
reports an error, while an ok response clears the token and every
subsequent token-requiring invocation (whose arguments pass validation)
then fails with MissingCredential. -/
theorem c4_revoke_token_atomic :
    ∀ (t : String) (oracle : Oracle), t ≠ "" →
      (∀ m, oracle (revokeReq t) = .transportError m →
        (handleTool "revoke_token" [] oracle (some t)).token = some t ∧
        (handleTool "revoke_token" [] oracle (some t)).outcome =
          .error ("Failed to revoke token: " ++ msgOr m)) ∧
      (∀ r, oracle (revokeReq t) = .response r → r.ok = false →
        (handleTool "revoke_token" [] oracle (some t)).token = some t ∧
        (handleTool "revoke_token" [] oracle (some t)).outcome =
          .error ("Failed to revoke token: " ++
            msgOr ("Failed to revoke token: " ++ r.statusText))) ∧
      (∀ r, oracle (revokeReq t) = .response r → r.ok = true →
        (handleTool "revoke_token" [] oracle (some t)).token = none ∧
        (handleTool "revoke_token" [] oracle (some t)).outcome =
          .ok "Access token has been successfully revoked and cleared" ∧
        ∀ name ∈ authTools,
          ∀ (args : Args) (oracle2 oracle3 : Oracle) (probe : Option String),
            (handleTool name args oracle3 probe).calls ≠ [] →
            missingCred (handleTool name args oracle2
              (handleTool "revoke_token" [] oracle (some t)).token)) := by
  intro t oracle ht
  have hred : handleTool "revoke_token" [] oracle (some t) =
      revoke_token_case oracle (some t) := rfl
  have hnf : ¬(tokenFalsy (some t) = true) := by simp [tokenFalsy, ht]
  refine ⟨?_, ?_, ?_⟩
  · intro m hm
    rw [hred]
    unfold revoke_token_case
    rw [if_neg hnf]
    dsimp only
    rw [Option.getD_some, hm]
    exact ⟨rfl, rfl⟩
  · intro r hr hok
    rw [hred]
    unfold revoke_token_case
    rw [if_neg hnf]
    dsimp only
    rw [Option.getD_some, hr]
    dsimp only
    rw [if_neg (by simp [hok])]
    exact ⟨rfl, rfl⟩
  · intro r hr hok
    have hres : handleTool "revoke_token" [] oracle (some t) =
        { outcome := .ok "Access token has been successfully revoked and cleared",
          token := none, calls := [revokeReq t] } := by
      rw [hred]
      unfold revoke_token_case
      rw [if_neg hnf]
      dsimp only
      rw [Option.getD_some, hr]
      dsimp only
      rw [if_pos hok]
    refine ⟨by rw [hres], by rw [hres], ?_⟩
    intro name hmem args oracle2 oracle3 probe hv
    rw [hres]
    exact handle_missing name hmem args oracle2 oracle3 none probe rfl hv

/-- Witness for C4: with the network down the token survives a failed
revoke; with an ok response it is cleared. -/
theorem c4_revoke_token_witness :
    (handleTool "revoke_token" [] oracleDown (some "t")).token = some "t" ∧
    (handleTool "revoke_token" [] oracleOk (some "t")).token = none :=
  ⟨((c4_revoke_token_atomic "t" oracleDown (by decide)).1 "fetch failed" rfl).1,
   ((c4_revoke_token_atomic "t" oracleOk (by decide)).2.2 okResp rfl (by decide)).1⟩

/-- C6: on a response whose declared content type includes the PGN media
type, `export_game` returns the response body exactly, not parsed as
JSON and not re-serialized. -/
theorem c6_pgn_passthrough :
    ∀ (g : String) (token : Option String) (oracle : Oracle) (r : FetchResponse)
      (ct : String),
      g.length = 8 → tokenFalsy token = false →
      (∀ q, oracle q = .response r) →
      r.ok = true → r.contentType = some ct →
      strContains ct "application/x-chess-pgn" = true →
      (handleTool "export_game" [("gameId", .strV g)] oracle token).outcome = .ok r.body := by
  intro g token oracle r ct h8 htok ho hok hct hpgn
  have hred : handleTool "export_game" [("gameId", JsPrim.strV g)] oracle token =
      export_game_case [("gameId", JsPrim.strV g)] oracle token := rfl
  rw [hred]
  unfold export_game_case
  dsimp only
  have hga : jsToString (getArg [("gameId", JsPrim.strV g)] "gameId") = g := rfl
  rw [hga]
  have hcond : ¬(g = "" ∨ g.length ≠ 8) := by
    rintro (h | h)
    · subst h; simp at h8
    · exact h h8
  rw [if_neg hcond]
  unfold lichessRequest
  rw [if_neg (by simp [htok])]
  dsimp only
  rw [ho _]
  dsimp only
  rw [if_pos hok]
  dsimp only
  rw [if_neg (by simp [hok]), hct]
  dsimp only
  rw [hpgn]
  rfl

/-- Witness for C6 at the specification's example body `1. e4 e5 *`. -/
theorem c6_pgn_witness :
    (handleTool "export_game" [("gameId", .strV "abcd1234")] oraclePgn (some "t")).outcome =
      .ok "1. e4 e5 *" :=
  c6_pgn_passthrough "abcd1234" (some "t") oraclePgn pgnResp
    "application/x-chess-pgn" (by decide) (by decide) (fun _ => rfl) (by decide) rfl
    (by decide)

/-- C7: `get_leaderboard` with `nb = 500` fails validation with no
fetch; with `nb = 200` and a token present, the single fetch issued
carries `200` verbatim in the path `/player/top/200/{perfType}`. -/
theorem c7_leaderboard_range :
    ∀ (p : String) (token : Option String) (oracle : Oracle), p ∈ validPerfTypes →
      handleTool "get_leaderboard" [("perfType", .strV p), ("nb", .numV 500)] oracle token =
        { outcome := .error "nb parameter must be between 1 and 200",
          token := token, calls := [] } ∧
      (tokenFalsy token = false →
        (handleTool "get_leaderboard" [("perfType", .strV p), ("nb", .numV 200)]
            oracle token).calls =
          [mkLichessReq token ("/player/top/200/" ++ p) "GET" [] none]) := by
  intro p token oracle hmem
  have hpne : p ≠ "" := by
    intro h
    subst h
    revert hmem
    decide
  constructor
  · have hred : handleTool "get_leaderboard"
        [("perfType", JsPrim.strV p), ("nb", JsPrim.numV 500)] oracle token =
        get_leaderboard_case [("perfType", JsPrim.strV p), ("nb", JsPrim.numV 500)]
          oracle token := rfl
    rw [hred]
    unfold get_leaderboard_case
    dsimp only
    have hp : jsToString (getArg [("perfType", JsPrim.strV p), ("nb", JsPrim.numV 500)]
        "perfType") = p := rfl
    have hnb : numOr (jsToNumber (getArg
        [("perfType", JsPrim.strV p), ("nb", JsPrim.numV 500)] "nb")) 100 = 500 := rfl
    rw [hp, hnb, if_neg hpne, if_neg (by simp [hmem]), if_pos (by norm_num)]
  · intro htok
    have hred : handleTool "get_leaderboard"
        [("perfType", JsPrim.strV p), ("nb", JsPrim.numV 200)] oracle token =
        get_leaderboard_case [("perfType", JsPrim.strV p), ("nb", JsPrim.numV 200)]
          oracle token := rfl
    rw [hred]
    unfold get_leaderboard_case
    dsimp only
    have hp : jsToString (getArg [("perfType", JsPrim.strV p), ("nb", JsPrim.numV 200)]
        "perfType") = p := rfl
    have hnb : numOr (jsToNumber (getArg
        [("perfType", JsPrim.strV p), ("nb", JsPrim.numV 200)] "nb")) 100 = 200 := rfl
    rw [hp, hnb, if_neg hpne, if_neg (by simp [hmem]), if_neg (by norm_num)]
    have h2 := lr_snd_present oracle token
      ("/player/top/" ++ toString (200 : Int) ++ "/" ++ p) "GET" [] none htok
    rcases hx : lichessRequest oracle token
        ("/player/top/" ++ toString (200 : Int) ++ "/" ++ p) "GET" [] none with
      ⟨res | res, cs⟩
    · rw [hx] at h2
      exact h2
    · rw [hx] at h2
      dsimp only
      rcases hj : jsonParse res.body with e | j
      · exact h2
      · exact h2

/-- Witness for C7 at `perfType = "blitz"` with a stored token. -/
theorem c7_leaderboard_witness :
    handleTool "get_leaderboard" [("perfType", .strV "blitz"), ("nb", .numV 500)]
        oracleOk (some "t") =
      { outcome := .error "nb parameter must be between 1 and 200",
        token := some "t", calls := [] } ∧
    (handleTool "get_leaderboard" [("perfType", .strV "blitz"), ("nb", .numV 200)]
        oracleOk (some "t")).calls =
      [mkLichessReq (some "t") "/player/top/200/blitz" "GET" [] none] :=
  ⟨(c7_leaderboard_range "blitz" (some "t") oracleOk (by decide)).1,
   (c7_leaderboard_range "blitz" (some "t") oracleOk (by decide)).2 (by decide)⟩

/-- C8: no invocation other than `set_token` and `revoke_token` ever
changes the stored bearer token, whether it returns a result or throws. -/
theorem c8_credential_store_frame :
    ∀ (name : String) (args : Args) (oracle : Oracle) (token : Option String),
      name ≠ "set_token" → name ≠ "revoke_token" →
      (handleTool name args oracle token).token = token :=
  fun name args oracle token h1 h2 => handle_frame name args oracle token h1 h2

/-- Witness for C8: a `make_move` call (here with an empty argument bag)
leaves the stored token unchanged. -/
theorem c8_credential_store_frame_witness :
    (handleTool "make_move" [] oracleOk (some "secret")).token = some "secret" :=
  c8_credential_store_frame "make_move" [] oracleOk (some "secret")
    (by decide) (by decide)

/-- C9 fails at `t = ""`: `set_token` with an empty token string throws
`Token is required` and leaves the old token in place, so the next
authenticated call carries `Bearer old`, not `Bearer ` followed by the
empty string. -/
theorem c9_empty_token_cex :
    handleTool "set_token" [("token", .strV "")] oracleOk (some "old") =
      { outcome := .error "Token is required", token := some "old", calls := [] } ∧
    ((handleTool "get_my_profile" [] oracleOk
        (handleTool "set_token" [("token", .strV "")] oracleOk (some "old")).token).calls.all
      (fun req => !(req.headers.contains ("Authorization", "Bearer ")))) = true :=
  ⟨rfl, by decide⟩

/-- C9 (amended to nonempty token strings): `set_token` with a nonempty
token `t` succeeds and stores exactly `t`, and afterwards every fetch
issued by any modelled tool carries `Authorization: Bearer t`. -/
theorem c9_set_token_round_trip :
    ∀ (t : String), t ≠ "" → ∀ (oracle0 : Oracle) (token0 : Option String),
      handleTool "set_token" [("token", .strV t)] oracle0 token0 =
        { outcome := .ok "Lichess API token has been set", token := some t, calls := [] } ∧
      ∀ (name : String) (args : Args) (oracle : Oracle),
        ∀ req ∈ (handleTool name args oracle (some t)).calls,
          ("Authorization", "Bearer " ++ t) ∈ req.headers := by
  intro t ht oracle0 token0
  constructor
  · have hred : handleTool "set_token" [("token", JsPrim.strV t)] oracle0 token0 =
        set_token_case [("token", JsPrim.strV t)] token0 := rfl
    rw [hred]
    unfold set_token_case
    dsimp only
    have hga : jsToString (getArg [("token", JsPrim.strV t)] "token") = t := rfl
    rw [hga, if_neg ht]
  · intro name args oracle
    exact handle_auth name args oracle t

/-- Witness for C9 at the concrete token `tok123`. -/
theorem c9_set_token_round_trip_witness :
    handleTool "set_token" [("token", .strV "tok123")] oracleOk none =
      { outcome := .ok "Lichess API token has been set",
        token := some "tok123", calls := [] } :=
  (c9_set_token_round_trip "tok123" (by decide) oracleOk none).1

/-- C10: a falsy `nb` slips past the range check: `get_leaderboard` with
`nb = 0` or a non-numeric `nb` raises no validation error and issues the
fetch with the default `nb = 100`, and `get_ongoing_games` with `nb = 0`
issues the fetch with its default `nb = 9`. -/
theorem c10_falsy_nb_defaults :
    ∀ (p : String) (token : Option String) (oracle : Oracle), p ∈ validPerfTypes →
      tokenFalsy token = false →
      (handleTool "get_leaderboard" [("perfType", .strV p), ("nb", .numV 0)]
          oracle token).calls =
        [mkLichessReq token ("/player/top/100/" ++ p) "GET" [] none] ∧
      (handleTool "get_leaderboard" [("perfType", .strV p), ("nb", .strV "abc")]
          oracle token).calls =
        [mkLichessReq token ("/player/top/100/" ++ p) "GET" [] none] ∧
      (handleTool "get_ongoing_games" [("nb", .numV 0)] oracle token).calls =
        [mkLichessReq token "/account/playing?nb=9" "GET" [] none] := by
  intro p token oracle hmem htok
  have hpne : p ≠ "" := by
    intro h
    subst h
    revert hmem
    decide
  refine ⟨?_, ?_, ?_⟩
  · have hred : handleTool "get_leaderboard"
        [("perfType", JsPrim.strV p), ("nb", JsPrim.numV 0)] oracle token =
        get_leaderboard_case [("perfType", JsPrim.strV p), ("nb", JsPrim.numV 0)]
          oracle token := rfl
    rw [hred]
    unfold get_leaderboard_case
    dsimp only
    have hp : jsToString (getArg [("perfType", JsPrim.strV p), ("nb", JsPrim.numV 0)]
        "perfType") = p := rfl
    have hnb : numOr (jsToNumber (getArg
        [("perfType", JsPrim.strV p), ("nb", JsPrim.numV 0)] "nb")) 100 = 100 := rfl
    rw [hp, hnb, if_neg hpne, if_neg (by simp [hmem]), if_neg (by norm_num)]
    have h2 := lr_snd_present oracle token
      ("/player/top/" ++ toString (100 : Int) ++ "/" ++ p) "GET" [] none htok
    rcases hx : lichessRequest oracle token
        ("/player/top/" ++ toString (100 : Int) ++ "/" ++ p) "GET" [] none with
      ⟨res | res, cs⟩
    · rw [hx] at h2
      exact h2
    · rw [hx] at h2
      dsimp only
      rcases hj : jsonParse res.body with e | j
      · exact h2
      · exact h2
  · have hred : handleTool "get_leaderboard"
        [("perfType", JsPrim.strV p), ("nb", JsPrim.strV "abc")] oracle token =
        get_leaderboard_case [("perfType", JsPrim.strV p), ("nb", JsPrim.strV "abc")]
          oracle token := rfl
    rw [hred]
    unfold get_leaderboard_case
    dsimp only
    have hp : jsToString (getArg [("perfType", JsPrim.strV p), ("nb", JsPrim.strV "abc")]
        "perfType") = p := rfl
    have hnb : numOr (jsToNumber (getArg
        [("perfType", JsPrim.strV p), ("nb", JsPrim.strV "abc")] "nb")) 100 = 100 := rfl
    rw [hp, hnb, if_neg hpne, if_neg (by simp [hmem]), if_neg (by norm_num)]
    have h2 := lr_snd_present oracle token
      ("/player/top/" ++ toString (100 : Int) ++ "/" ++ p) "GET" [] none htok
    rcases hx : lichessRequest oracle token
        ("/player/top/" ++ toString (100 : Int) ++ "/" ++ p) "GET" [] none with
      ⟨res | res, cs⟩
    · rw [hx] at h2
      exact h2
    · rw [hx] at h2
      dsimp only
      rcases hj : jsonParse res.body with e | j
      · exact h2
      · exact h2
  · have hred : handleTool "get_ongoing_games" [("nb", JsPrim.numV 0)] oracle token =
        get_ongoing_games_case [("nb", JsPrim.numV 0)] oracle token := rfl
    rw [hred]
    unfold get_ongoing_games_case
    dsimp only
    have hnb : numOr (jsToNumber (getArg [("nb", JsPrim.numV 0)] "nb")) 9 = 9 := rfl
    rw [hnb, if_neg (by norm_num)]
    have h2 := lr_snd_present oracle token
      ("/account/playing?nb=" ++ toString (9 : Int)) "GET" [] none htok
    rcases hx : lichessRequest oracle token
        ("/account/playing?nb=" ++ toString (9 : Int)) "GET" [] none with
      ⟨res | res, cs⟩
    · rw [hx] at h2
      exact h2
    · rw [hx] at h2
      dsimp only
      split
      · exact h2
      · rcases hj : jsonParse res.body with e | j
        · exact h2
        · exact h2

/-- Witness for C10 at `perfType = "blitz"` with a stored token. -/
theorem c10_falsy_nb_witness :
    (handleTool "get_leaderboard" [("perfType", .strV "blitz"), ("nb", .numV 0)]
        oracleOk (some "t")).calls =
      [mkLichessReq (some "t") "/player/top/100/blitz" "GET" [] none] ∧
    (handleTool "get_ongoing_games" [("nb", .numV 0)] oracleOk (some "t")).calls =
      [mkLichessReq (some "t") "/account/playing?nb=9" "GET" [] none] :=
  ⟨(c10_falsy_nb_defaults "blitz" (some "t") oracleOk (by decide) (by decide)).1,
   (c10_falsy_nb_defaults "blitz" (some "t") oracleOk (by decide) (by decide)).2.2⟩

end LichessMCP
